import Mathlib

/-!
Verification of the irrigation backend (`src/main.py`) against its
natural-language specification.

The embedding is shallow:
* Python floats are modelled as `ℚ` (all arithmetic in the pipeline is
  exact on the values the claims mention);
* Python exceptions are modelled with `Except String`; a `try/except`
  block is the outer `match` that converts a raised error into the
  handler's return value;
* the external collaborators (label encoders, scaler, classifier model,
  Firebase store, wall clock) are fields of an environment record, each
  fallible operation returning `Except String`;
* a Firebase node (a Python dict) is an association list from `String`
  to `Value`, where `Value.num q` is a value that `float()` coerces to
  the rational `q` and `Value.nonNum` is a value on which `float()`
  raises (`TypeError`/`ValueError`).
-/

deriving instance DecidableEq for Except

namespace Irrigation

/-- A value stored under one key of a Firebase node.  `num q` models any
Python value that `float()` converts to the number `q` (floats, ints,
numeric strings); `nonNum` models any value on which `float()` raises
(`None`, nested dicts, non-numeric strings, ...).  The `tag` keeps
distinct non-numeric values distinguishable so that dict value equality
is faithful. -/
inductive Value where
  | num (q : ℚ)
  | nonNum (tag : Nat)
deriving DecidableEq, Repr

/-- A Firebase node as returned by `ref.get()`: a Python dict, modelled
as an association list (first occurrence wins on lookup; real dicts are
duplicate-free). -/
def Snapshot : Type := List (String × Value)

instance : DecidableEq Snapshot := by
  unfold Snapshot
  infer_instance

instance : Repr Snapshot := by
  unfold Snapshot
  infer_instance

/-- Key lookup in a node, the model of Python's `d[k]` / `k in d` /
`d.get(k, default)` access. -/
def slookup (k : String) : Snapshot → Option Value
  | [] => none
  | (k2, v) :: rest => if k = k2 then some v else slookup k rest

/-- The keys of a node. -/
def skeys (m : Snapshot) : List String := m.map Prod.fst

/-- Whether a node (as a list) is empty: model of Python dict
truthiness (`not d` is true exactly for the empty dict). -/
def sIsEmpty (m : Snapshot) : Bool := m.isEmpty

/-- Python dict value equality `a == b`: the two dicts agree on the
lookup of every key of either. -/
def dict_eq (a b : Snapshot) : Bool :=
  (skeys a).all (fun k => decide (slookup k a = slookup k b)) &&
  (skeys b).all (fun k => decide (slookup k a = slookup k b))

/-- Python's `float(v)`: succeeds with the numeric value on coercible
values, raises (`Except.error`) otherwise. -/
def pyFloat : Value → Except String ℚ
  | Value.num q => Except.ok q
  | Value.nonNum _ => Except.error "could not convert value to float"

/-- The validated request body (`class SensorData(BaseModel)`,
main.py lines 44-47). -/
structure SensorData where
  humidity : ℚ
  temperature : ℚ
  soilMoisture : ℚ
deriving DecidableEq, Repr

/-- A wall-clock instant as `datetime.now()` returns it.  `day_of_year`
models `now.timetuple().tm_yday`.  The real `datetime` type guarantees
`year ≤ 9999`, `month ≤ 12`, `day ≤ 31`, `hour ≤ 23`, `minute ≤ 59`,
`second ≤ 59`, `microsecond ≤ 999999`; on those ranges the digit
renderings below agree with Python's zero-padded formatting. -/
structure DateTime where
  year : Nat
  month : Nat
  day : Nat
  hour : Nat
  minute : Nat
  second : Nat
  microsecond : Nat
  day_of_year : Nat
deriving Repr

/-- The decimal digit character of `n % 10`. -/
def digitChar (n : Nat) : Char := Char.ofNat (48 + n % 10)

/-- Two-digit zero-padded rendering (`%02d` for `n < 100`). -/
def pad2l (n : Nat) : List Char := [digitChar (n / 10), digitChar n]

/-- Four-digit zero-padded rendering (`%04d` for `n < 10000`). -/
def pad4l (n : Nat) : List Char :=
  [digitChar (n / 1000), digitChar (n / 100), digitChar (n / 10), digitChar n]

/-- Six-digit zero-padded rendering (`%06d` for `n < 1000000`). -/
def pad6l (n : Nat) : List Char :=
  [digitChar (n / 100000), digitChar (n / 10000), digitChar (n / 1000),
   digitChar (n / 100), digitChar (n / 10), digitChar n]

/-- Python's `datetime.isoformat()`: `YYYY-MM-DDTHH:MM:SS`, with a
`.ffffff` microsecond suffix exactly when the microsecond field is
nonzero. -/
def isoformat (dt : DateTime) : String :=
  String.mk
    (pad4l dt.year ++ ['-'] ++ pad2l dt.month ++ ['-'] ++ pad2l dt.day ++
     ['T'] ++ pad2l dt.hour ++ [':'] ++ pad2l dt.minute ++ [':'] ++
     pad2l dt.second ++
     (if dt.microsecond = 0 then [] else ['.'] ++ pad6l dt.microsecond))

/-- Syntactic ISO-8601 timestamp check: `YYYY-MM-DDTHH:MM:SS` with an
optional `.ffffff` fractional-second suffix. -/
def isISO8601 (ts : String) : Bool :=
  match ts.data with
  | y1 :: y2 :: y3 :: y4 :: c1 :: mo1 :: mo2 :: c2 :: d1 :: d2 :: c3 ::
    h1 :: h2 :: c4 :: mi1 :: mi2 :: c5 :: se1 :: se2 :: rest =>
      [y1, y2, y3, y4, mo1, mo2, d1, d2, h1, h2, mi1, mi2, se1, se2].all Char.isDigit &&
      c1 == '-' && c2 == '-' && c3 == 'T' && c4 == ':' && c5 == ':' &&
      (match rest with
       | [] => true
       | c :: us => c == '.' && us.length == 6 && us.all Char.isDigit)
  | _ => false

/-- The constant rainfall forecast placeholder
(`'rainfall_mm_prediction_next_1h': 0.5`, main.py line 59). -/
def rainfall_mm_prediction_next_1h : ℚ := 1/2

/-- Heat-stress flag (main.py line 74):
`int(temperature_celsius > 35 and humidity_percent < 50)`. -/
def heat_stress (temperature humidity : ℚ) : ℚ :=
  if 35 < temperature ∧ humidity < 50 then 1 else 0

/-- Drought-stress flag (main.py line 75):
`int(soil_moisture_percent < 30 and rainfall_mm_prediction_next_1h < 1)`. -/
def drought_stress (soil_moisture : ℚ) : ℚ :=
  if soil_moisture < 30 ∧ rainfall_mm_prediction_next_1h < 1 then 1 else 0

/-- The 14-element feature vector (main.py lines 80-95), in source
order. -/
def feature_vector (data : SensorData) (now : DateTime)
    (district_enc zone_enc season_enc : ℚ) : List ℚ :=
  [ data.soilMoisture,
    data.temperature,
    data.humidity,
    rainfall_mm_prediction_next_1h,
    (now.hour : ℚ),
    (now.day_of_year : ℚ),
    (now.month : ℚ),
    district_enc,
    zone_enc,
    season_enc,
    heat_stress data.temperature data.humidity,
    drought_stress data.soilMoisture,
    data.soilMoisture * data.temperature,
    data.humidity * rainfall_mm_prediction_next_1h ]

/-- Outcome of `predict_irrigation`: either the success dict
`{"irrigation_class": ..., "timestamp": ...}` or the error dict
`{"error": ...}`. -/
inductive PredictResult where
  | success (irrigation_class : ℤ) (timestamp : String)
  | error (message : String)
deriving DecidableEq, Repr

/-- The collaborators `predict_irrigation` uses, each modelled as a
fallible operation.  `now` is the `datetime.now()` of line 54, `now2`
the one of line 102.  `le_district`/`le_zone`/`le_season` model
`encoders[...].transform([x])[0]` (raising on an unseen label);
`scaler` models `scaler.transform`; `model` models
`int(model.predict(scaled)[0])`; the two `set_` fields model the
`db.reference(...).set(...)` store writes of lines 103-104. -/
structure PredictEnv where
  now : DateTime
  now2 : DateTime
  le_district : String → Except String ℚ
  le_zone : String → Except String ℚ
  le_season : String → Except String ℚ
  scaler : List ℚ → Except String (List ℚ)
  model : List ℚ → Except String ℤ
  set_prediction_class : ℤ → Except String Unit
  set_last_prediction_time : String → Except String Unit

/-- Function `predict_irrigation` (main.py lines 52-111).  The whole body is one
`try` block; any raise anywhere inside — encoding, scaling,
classification, or either store write — lands in the single outer
`except Exception` of line 109 and is returned as
`PredictResult.error`.  Exception propagation is made explicit: each
fallible collaborator call is matched, and every `Except.error` branch
is that one outer handler receiving the first exception raised; the
sequencing (encode district, zone, season; scale; classify; take the
timestamp; write the class; write the timestamp; return the success
dict) follows the source order. -/
def predict_irrigation (env : PredictEnv) (data : SensorData) : PredictResult :=
  match env.le_district "Coimbatore" with
  | Except.error e => PredictResult.error e
  | Except.ok district_enc =>
  match env.le_zone "Western Zone" with
  | Except.error e => PredictResult.error e
  | Except.ok zone_enc =>
  match env.le_season "southwest_monsoon" with
  | Except.error e => PredictResult.error e
  | Except.ok season_enc =>
  match env.scaler (feature_vector data env.now district_enc zone_enc season_enc) with
  | Except.error e => PredictResult.error e
  | Except.ok scaled =>
  match env.model scaled with
  | Except.error e => PredictResult.error e
  | Except.ok irrigation_class =>
  match env.set_prediction_class irrigation_class with
  | Except.error e => PredictResult.error e
  | Except.ok _ =>
  match env.set_last_prediction_time (isoformat env.now2) with
  | Except.error e => PredictResult.error e
  | Except.ok _ => PredictResult.success irrigation_class (isoformat env.now2)

/-- Outcome of `trigger_prediction` (`POST /trigger-prediction`): the
`{"status": "success", "result": ..., "input_data": ...}` dict or an
error dict `{"status": "error", "message": ...}` (the "no data" case is
the error with message `"No sensor data found"`, main.py line 164). -/
inductive TriggerResult where
  | success (result : PredictResult) (input_data : Snapshot)
  | error (message : String)
deriving DecidableEq, Repr

/-- The collaborators of `trigger_prediction`: `read_raw` is the
`db.reference("sensorData/raw").get()` store read, `penv` the pipeline
collaborators. -/
structure TriggerEnv where
  read_raw : Except String (Option Snapshot)
  penv : PredictEnv

/-- The three-field coercion shared by the poller and the trigger
(`SensorData(humidity=float(d.get("humidity", 0.0)), ...)`, main.py
lines 156-160 and 194-198): each field is looked up with the default
`0.0`, passed through `float()`, and the first raise aborts. -/
def coerce3 (m : Snapshot) : Except String SensorData :=
  match pyFloat ((slookup "humidity" m).getD (Value.num 0)) with
  | Except.error e => Except.error e
  | Except.ok humidity =>
  match pyFloat ((slookup "temperature" m).getD (Value.num 0)) with
  | Except.error e => Except.error e
  | Except.ok temperature =>
  match pyFloat ((slookup "soilMoisture" m).getD (Value.num 0)) with
  | Except.error e => Except.error e
  | Except.ok soilMoisture =>
    Except.ok { humidity := humidity, temperature := temperature, soilMoisture := soilMoisture }

/-- Function `trigger_prediction` (main.py lines 149-167).  Truthiness of
`if current_data:`: an absent node (`None`) or an empty dict takes the
else branch and reports "No sensor data found".  All raises inside the
`try` (the read and the `float()` coercions) are returned as the error
dict; `predict_irrigation` itself never raises. -/
def trigger_prediction (env : TriggerEnv) : TriggerResult :=
  match env.read_raw with
  | Except.error e => TriggerResult.error e
  | Except.ok currentOpt =>
  match currentOpt with
  | none => TriggerResult.error "No sensor data found"
  | some current =>
    if sIsEmpty current then TriggerResult.error "No sensor data found"
    else
      match coerce3 current with
      | Except.error e => TriggerResult.error e
      | Except.ok data => TriggerResult.success (predict_irrigation env.penv data) current

/-- The poller's state across iterations (`last_values`,
`consecutive_errors`; main.py lines 173-174). -/
structure PollerState where
  last_values : Option Snapshot
  consecutive_errors : Nat
deriving DecidableEq, Repr

/-- Constant `max_errors = 5` (main.py line 175). -/
def max_errors : Nat := 5

/-- The change-detection condition of main.py line 186:
`last_values is None or current != last_values or not last_values`. -/
def snapshot_changed (last : Option Snapshot) (current : Snapshot) : Bool :=
  match last with
  | none => true
  | some prev => !dict_eq current prev || sIsEmpty prev

/-- Constant `required_fields = ['humidity', 'temperature', 'soilMoisture']`
(main.py line 191). -/
def required_fields : List String := ["humidity", "temperature", "soilMoisture"]

/-- The presence check of main.py line 192:
`all(field in current for field in required_fields)`. -/
def has_required_fields (m : Snapshot) : Bool :=
  required_fields.all (fun f => (slookup f m).isSome)

/-- One iteration of the `while True` body of
`monitor_firebase_sensor_data` (main.py lines 179-222).  `read` is the
outcome of `db.reference("sensorData").get()`.  The result is the new
state, whether `predict_irrigation` was invoked this iteration, and
whether the loop `break`s.  The inner `except (ValueError, TypeError)`
of line 203 catches only the `float()` coercions (the pipeline itself
never raises); the outer `except` of line 215 catches the store read,
increments the counter, and breaks at the ceiling. -/
def monitor_step (penv : PredictEnv) (read : Except String (Option Snapshot))
    (s : PollerState) : PollerState × Bool × Bool :=
  match read with
  | Except.ok curOpt =>
    match curOpt with
    | some current =>
      if snapshot_changed s.last_values current then
        if has_required_fields current then
          match coerce3 current with
          | Except.ok data =>
            let _result := predict_irrigation penv data
            ({ last_values := some current, consecutive_errors := 0 }, true, false)
          | Except.error _ => (s, false, false)
        else (s, false, false)
      else (s, false, false)
    | none => (s, false, false)
  | Except.error _ =>
    let ce := s.consecutive_errors + 1
    ({ s with consecutive_errors := ce }, false, decide (max_errors ≤ ce))

/-- The environment one poller iteration sees: the store-read outcome
and the pipeline collaborators for that iteration. -/
structure PollIter where
  read : Except String (Option Snapshot)
  penv : PredictEnv

/-- The poller loop run over a finite schedule of iteration
environments: folds `monitor_step`, stopping at the first `break`.
Returns the final state, the number of pipeline invocations, and
whether the loop stopped via the error ceiling. -/
def monitor_run : List PollIter → PollerState → PollerState × Nat × Bool
  | [], s => (s, 0, false)
  | it :: rest, s =>
    match monitor_step it.penv it.read s with
    | (s2, inv, brk) =>
      if brk then (s2, if inv then 1 else 0, true)
      else
        match monitor_run rest s2 with
        | (s3, n, fin) => (s3, (if inv then 1 else 0) + n, fin)

/-- The initial poller state (`last_values = None`,
`consecutive_errors = 0`, main.py lines 173-174). -/
def initial_state : PollerState := { last_values := none, consecutive_errors := 0 }

/-- The poller-state invariant of claim C10: `last_values` is either
unset or a snapshot containing all three required fields. -/
def state_inv (s : PollerState) : Prop :=
  s.last_values = none ∨
  ∃ m, s.last_values = some m ∧ has_required_fields m = true

/-! Concrete fixtures used by witnesses and counterexamples. -/

/-- A concrete wall-clock instant (microsecond 0, so `isoformat` is the
short form `2025-03-14T09:26:53`). -/
def dtC : DateTime :=
  { year := 2025, month := 3, day := 14, hour := 9, minute := 26,
    second := 53, microsecond := 0, day_of_year := 73 }

/-- An environment in which every collaborator succeeds: encoders
return fixed codes, the scaler is the identity, the model always
returns class 1, both store writes succeed. -/
def envOk : PredictEnv :=
  { now := dtC, now2 := dtC,
    le_district := fun _ => Except.ok 3,
    le_zone := fun _ => Except.ok 4,
    le_season := fun _ => Except.ok 2,
    scaler := fun v => Except.ok v,
    model := fun _ => Except.ok 1,
    set_prediction_class := fun _ => Except.ok (),
    set_last_prediction_time := fun _ => Except.ok () }

/-- Like `envOk` but the `prediction_class` store write raises. -/
def envWriteFail : PredictEnv :=
  { envOk with set_prediction_class := fun _ => Except.error "write failed" }

/-- Like `envOk` but the classifier raises. -/
def envModelFail : PredictEnv :=
  { envOk with model := fun _ => Except.error "model failure" }

/-- A complete snapshot (the first spec scenario). -/
def snapA : Snapshot :=
  [("humidity", Value.num 60), ("temperature", Value.num 30), ("soilMoisture", Value.num 45)]

/-- A complete snapshot differing from `snapA` in every field (the
second spec scenario). -/
def snapB : Snapshot :=
  [("humidity", Value.num 40), ("temperature", Value.num 38), ("soilMoisture", Value.num 20)]

/-- A nonempty snapshot missing the required field `soilMoisture`. -/
def snapMissing : Snapshot :=
  [("humidity", Value.num 60), ("temperature", Value.num 30)]

/-- A poller iteration whose store read fails. -/
def iterFail : PollIter := { read := Except.error "network down", penv := envOk }

/-- A poller iteration whose store read succeeds with an absent node. -/
def iterNone : PollIter := { read := Except.ok none, penv := envOk }

/-- A poller iteration reading `snapA`. -/
def iterA : PollIter := { read := Except.ok (some snapA), penv := envOk }

/-- A poller iteration reading `snapB`. -/
def iterB : PollIter := { read := Except.ok (some snapB), penv := envOk }

/-- A trigger environment whose raw read returns `snapMissing`. -/
def trigEnvMissing : TriggerEnv := { read_raw := Except.ok (some snapMissing), penv := envOk }


/-! Helper lemmas. -/

/-- Every character `digitChar` produces is a decimal digit. -/
theorem digitChar_isDigit (n : Nat) : (digitChar n).isDigit = true := by
  have h : n % 10 < 10 := Nat.mod_lt _ (by decide)
  have key : ∀ m, m < 10 → (Char.ofNat (48 + m)).isDigit = true := by decide
  exact key (n % 10) h

/-- Every `isoformat` rendering is a syntactically valid ISO-8601
timestamp. -/
theorem isoformat_valid (dt : DateTime) : isISO8601 (isoformat dt) = true := by
  by_cases h : dt.microsecond = 0 <;>
    simp [isoformat, isISO8601, pad4l, pad2l, pad6l, h, digitChar_isDigit]

/-- A key that looks up successfully is among the node's keys. -/
theorem slookup_mem_skeys (m : Snapshot) (k : String) (v : Value) :
    slookup k m = some v → k ∈ skeys m := by
  induction m with
  | nil => intro h; simp [slookup] at h
  | cons kv rest ih =>
    intro h
    rcases kv with ⟨k2, v2⟩
    by_cases hk : k = k2
    · subst hk
      exact List.mem_cons_self _ _
    · have hrest : slookup k rest = some v := by simpa [slookup, hk] using h
      exact List.mem_cons_of_mem k2 (ih hrest)

/-- A snapshot that is dict-equal to an empty one has no successful
lookups, hence fails the required-fields check. -/
theorem dict_eq_empty_no_fields (current prev : Snapshot)
    (heq : dict_eq current prev = true) (hemp : sIsEmpty prev = true) :
    has_required_fields current = false := by
  have hprev : prev = [] := by
    cases prev with
    | nil => rfl
    | cons a l => simp [sIsEmpty, List.isEmpty] at hemp
  subst hprev
  by_contra hreq
  rw [Bool.not_eq_false] at hreq
  simp [has_required_fields, required_fields] at hreq
  obtain ⟨v, hv⟩ := Option.isSome_iff_exists.mp hreq.1
  have hmem : "humidity" ∈ skeys current := slookup_mem_skeys current _ _ hv
  simp [dict_eq] at heq
  have := heq.1 "humidity" hmem
  rw [hv] at this
  simp [slookup] at this

/-- One `monitor_step` preserves the poller-state invariant: `last_values`
is `none` or a snapshot with all three required fields. -/
theorem monitor_step_inv (penv : PredictEnv) (read : Except String (Option Snapshot))
    (s : PollerState) (h : state_inv s) : state_inv (monitor_step penv read s).1 := by
  cases read with
  | error e =>
    simp only [monitor_step]
    rcases h with h | ⟨m, hm, hreq⟩
    · exact Or.inl h
    · exact Or.inr ⟨m, hm, hreq⟩
  | ok curOpt =>
    cases curOpt with
    | none => exact h
    | some current =>
      simp only [monitor_step]
      cases hch : snapshot_changed s.last_values current with
      | false => simp only [Bool.false_eq_true, if_false]; exact h
      | true =>
        simp only [if_true]
        cases hreq : has_required_fields current with
        | false => simp only [Bool.false_eq_true, if_false]; exact h
        | true =>
          simp only [if_true]
          cases hco : coerce3 current with
          | error e => exact h
          | ok data => exact Or.inr ⟨current, rfl, hreq⟩

/-- Any `monitor_run` preserves the poller-state invariant. -/
theorem monitor_run_inv (iters : List PollIter) (s : PollerState)
    (h : state_inv s) : state_inv (monitor_run iters s).1 := by
  induction iters generalizing s with
  | nil => exact h
  | cons it rest ih =>
    simp only [monitor_run]
    have hstep := monitor_step_inv it.penv it.read s h
    rcases hm : monitor_step it.penv it.read s with ⟨s2, inv, brk⟩
    rw [hm] at hstep
    cases brk with
    | true => simpa using hstep
    | false =>
      simp only [Bool.false_eq_true, if_false]
      rcases hr : monitor_run rest s2 with ⟨s3, n, fin⟩
      have := ih s2 hstep
      rw [hr] at this
      simpa using this

/-- When the three encoders, the scaler and the model all succeed,
`predict_irrigation` reduces to the two store writes followed by the
success dict. -/
theorem predict_irrigation_ok (env : PredictEnv) (data : SensorData)
    (d z se : ℚ) (scaled : List ℚ) (c : ℤ)
    (h1 : env.le_district "Coimbatore" = Except.ok d)
    (h2 : env.le_zone "Western Zone" = Except.ok z)
    (h3 : env.le_season "southwest_monsoon" = Except.ok se)
    (h4 : env.scaler (feature_vector data env.now d z se) = Except.ok scaled)
    (h5 : env.model scaled = Except.ok c) :
    predict_irrigation env data =
      match env.set_prediction_class c with
      | Except.error e => PredictResult.error e
      | Except.ok _ =>
        match env.set_last_prediction_time (isoformat env.now2) with
        | Except.error e => PredictResult.error e
        | Except.ok _ => PredictResult.success c (isoformat env.now2) := by
  simp only [predict_irrigation, h1, h2, h3, h4, h5]

/-- C8: heat_stress is 1 exactly when temperature > 35 and
humidity < 50, else 0; drought_stress is 1 exactly when soil moisture
< 30 and the rainfall placeholder (0.5) < 1, else 0; and the two spec
scenarios {humidity 60, temperature 30, soilMoisture 45} → (0, 0) and
{humidity 40, temperature 38, soilMoisture 20} → (1, 1) hold. -/
theorem stress_flags_thresholds (temperature humidity soil_moisture : ℚ) :
    (heat_stress temperature humidity = 1 ↔ (35 < temperature ∧ humidity < 50))
    ∧ (heat_stress temperature humidity = 0 ↔ ¬ (35 < temperature ∧ humidity < 50))
    ∧ (drought_stress soil_moisture = 1
        ↔ (soil_moisture < 30 ∧ rainfall_mm_prediction_next_1h < 1))
    ∧ (drought_stress soil_moisture = 0
        ↔ ¬ (soil_moisture < 30 ∧ rainfall_mm_prediction_next_1h < 1))
    ∧ heat_stress 30 60 = 0 ∧ drought_stress 45 = 0
    ∧ heat_stress 38 40 = 1 ∧ drought_stress 20 = 1 := by
  refine ⟨?_, ?_, ?_, ?_, ?_, ?_, ?_, ?_⟩
  · unfold heat_stress; split <;> simp_all
  · unfold heat_stress; split <;> simp_all
  · unfold drought_stress; split <;> simp_all
  · unfold drought_stress; split <;> simp_all
  · exact if_neg (by norm_num)
  · exact if_neg (by norm_num)
  · exact if_pos (by norm_num)
  · exact if_pos (by norm_num [rainfall_mm_prediction_next_1h])

/-- C8 witness: the second spec scenario, obtained by applying the
threshold characterization at temperature 38, humidity 40,
soil moisture 20. -/
theorem stress_flags_thresholds_witness :
    heat_stress 38 40 = 1 ∧ drought_stress 20 = 1 :=
  ⟨(stress_flags_thresholds 38 40 20).1.mpr (by norm_num),
   (stress_flags_thresholds 38 40 20).2.2.1.mpr (by norm_num [rainfall_mm_prediction_next_1h])⟩

/-- C9: the assembled feature vector has exactly 14 elements in the
fixed source order: soil moisture, temperature, humidity, rainfall
placeholder, hour, day-of-year, month, district code, zone code,
season code, heat-stress flag, drought-stress flag,
soil-moisture×temperature, humidity×rainfall-placeholder. -/
theorem feature_vector_order_and_count (data : SensorData) (now : DateTime)
    (district_enc zone_enc season_enc : ℚ) :
    (feature_vector data now district_enc zone_enc season_enc).length = 14
    ∧ (feature_vector data now district_enc zone_enc season_enc)[0]? = some data.soilMoisture
    ∧ (feature_vector data now district_enc zone_enc season_enc)[1]? = some data.temperature
    ∧ (feature_vector data now district_enc zone_enc season_enc)[2]? = some data.humidity
    ∧ (feature_vector data now district_enc zone_enc season_enc)[3]?
        = some rainfall_mm_prediction_next_1h
    ∧ (feature_vector data now district_enc zone_enc season_enc)[4]? = some (now.hour : ℚ)
    ∧ (feature_vector data now district_enc zone_enc season_enc)[5]? = some (now.day_of_year : ℚ)
    ∧ (feature_vector data now district_enc zone_enc season_enc)[6]? = some (now.month : ℚ)
    ∧ (feature_vector data now district_enc zone_enc season_enc)[7]? = some district_enc
    ∧ (feature_vector data now district_enc zone_enc season_enc)[8]? = some zone_enc
    ∧ (feature_vector data now district_enc zone_enc season_enc)[9]? = some season_enc
    ∧ (feature_vector data now district_enc zone_enc season_enc)[10]?
        = some (heat_stress data.temperature data.humidity)
    ∧ (feature_vector data now district_enc zone_enc season_enc)[11]?
        = some (drought_stress data.soilMoisture)
    ∧ (feature_vector data now district_enc zone_enc season_enc)[12]?
        = some (data.soilMoisture * data.temperature)
    ∧ (feature_vector data now district_enc zone_enc season_enc)[13]?
        = some (data.humidity * rainfall_mm_prediction_next_1h) :=
  ⟨rfl, rfl, rfl, rfl, rfl, rfl, rfl, rfl, rfl, rfl, rfl, rfl, rfl, rfl, rfl⟩

/-- C5: for every input, `predict_irrigation` returns either a success
dict whose timestamp is a syntactically valid ISO-8601 string, or an
error dict; being a total function into `PredictResult`, it never
raises to its caller under any internal failure of encoding, scaling,
classification, or store write. -/
theorem predict_total_result_shape (env : PredictEnv) (data : SensorData) :
    (∃ c ts, predict_irrigation env data = PredictResult.success c ts ∧ isISO8601 ts = true)
    ∨ (∃ m, predict_irrigation env data = PredictResult.error m) := by
  cases h1 : env.le_district "Coimbatore" with
  | error e => exact Or.inr ⟨e, by simp only [predict_irrigation, h1]⟩
  | ok d =>
  cases h2 : env.le_zone "Western Zone" with
  | error e => exact Or.inr ⟨e, by simp only [predict_irrigation, h1, h2]⟩
  | ok z =>
  cases h3 : env.le_season "southwest_monsoon" with
  | error e => exact Or.inr ⟨e, by simp only [predict_irrigation, h1, h2, h3]⟩
  | ok se =>
  cases h4 : env.scaler (feature_vector data env.now d z se) with
  | error e => exact Or.inr ⟨e, by simp only [predict_irrigation, h1, h2, h3, h4]⟩
  | ok scaled =>
  cases h5 : env.model scaled with
  | error e => exact Or.inr ⟨e, by simp only [predict_irrigation, h1, h2, h3, h4, h5]⟩
  | ok c =>
  cases h6 : env.set_prediction_class c with
  | error e => exact Or.inr ⟨e, by simp only [predict_irrigation, h1, h2, h3, h4, h5, h6]⟩
  | ok u =>
  cases h7 : env.set_last_prediction_time (isoformat env.now2) with
  | error e => exact Or.inr ⟨e, by simp only [predict_irrigation, h1, h2, h3, h4, h5, h6, h7]⟩
  | ok u2 =>
    exact Or.inl ⟨c, isoformat env.now2,
      by simp only [predict_irrigation, h1, h2, h3, h4, h5, h6, h7],
      isoformat_valid env.now2⟩

/-- C1 counterexample: with every collaborator succeeding the pipeline
classifies snapshot (60, 30, 45) as class 1, but when the
`prediction_class` store write raises, `predict_irrigation` returns
the error dict — not the in-memory success result, because the write
happens inside the same `try` whose handler converts any exception
into `{error}`. -/
theorem predict_write_failure_error_cex :
    predict_irrigation envOk { humidity := 60, temperature := 30, soilMoisture := 45 }
      = PredictResult.success 1 "2025-03-14T09:26:53"
    ∧ predict_irrigation envWriteFail { humidity := 60, temperature := 30, soilMoisture := 45 }
      = PredictResult.error "write failed" := by
  exact ⟨by decide, by decide⟩

/-- C1 (amended): if classification succeeds but a store write of the
prediction result fails, `predict_irrigation` catches the write
exception and returns the error dict `{error: message}` to the caller
— the in-memory success result is discarded; no exception propagates
(the function is total). -/
theorem predict_write_failure_returns_error (env : PredictEnv) (data : SensorData)
    (d z se : ℚ) (scaled : List ℚ) (c : ℤ) (m : String)
    (h1 : env.le_district "Coimbatore" = Except.ok d)
    (h2 : env.le_zone "Western Zone" = Except.ok z)
    (h3 : env.le_season "southwest_monsoon" = Except.ok se)
    (h4 : env.scaler (feature_vector data env.now d z se) = Except.ok scaled)
    (h5 : env.model scaled = Except.ok c) :
    (env.set_prediction_class c = Except.error m →
       predict_irrigation env data = PredictResult.error m)
    ∧ (env.set_prediction_class c = Except.ok () →
       env.set_last_prediction_time (isoformat env.now2) = Except.error m →
       predict_irrigation env data = PredictResult.error m) := by
  constructor
  · intro h6
    rw [predict_irrigation_ok env data d z se scaled c h1 h2 h3 h4 h5, h6]
  · intro h6 h7
    rw [predict_irrigation_ok env data d z se scaled c h1 h2 h3 h4 h5, h6, h7]

/-- C1 witness: the amended statement applied at the concrete failing
environment. -/
theorem predict_write_failure_returns_error_witness :
    predict_irrigation envWriteFail { humidity := 60, temperature := 30, soilMoisture := 45 }
      = PredictResult.error "write failed" :=
  (predict_write_failure_returns_error envWriteFail
    { humidity := 60, temperature := 30, soilMoisture := 45 }
    3 4 2 _ 1 "write failed" rfl rfl rfl rfl rfl).1 rfl

/-- C3 counterexample: for the nonempty snapshot missing
`soilMoisture`, the trigger does not return an error result — it
substitutes the default 0.0 for the missing field, invokes the
pipeline, and (all collaborators succeeding) returns a successful
classification wrapped in a success status. -/
theorem trigger_missing_field_success_cex :
    trigger_prediction trigEnvMissing
      = TriggerResult.success (PredictResult.success 1 "2025-03-14T09:26:53") snapMissing := by
  decide

/-- C3 (amended): for a nonempty snapshot read from the store, each
missing required field is silently defaulted to 0.0 (shown here for
`soilMoisture`) and the pipeline is invoked with the defaulted values —
possibly to a successful classification; the trigger never crashes
(it is a total function, with coercion and pipeline errors surfaced as
structured error results and an absent or empty node reported as "No
sensor data found"). -/
theorem trigger_missing_field_defaults_zero (env : TriggerEnv) (current : Snapshot) (h t : ℚ)
    (hread : env.read_raw = Except.ok (some current))
    (hne : sIsEmpty current = false)
    (hhum : pyFloat ((slookup "humidity" current).getD (Value.num 0)) = Except.ok h)
    (htem : pyFloat ((slookup "temperature" current).getD (Value.num 0)) = Except.ok t)
    (hsm : slookup "soilMoisture" current = none) :
    trigger_prediction env
      = TriggerResult.success
          (predict_irrigation env.penv { humidity := h, temperature := t, soilMoisture := 0 })
          current := by
  have hsm0 : pyFloat ((slookup "soilMoisture" current).getD (Value.num 0)) = Except.ok 0 := by
    rw [hsm]; rfl
  have hcoerce : coerce3 current
      = Except.ok { humidity := h, temperature := t, soilMoisture := 0 } := by
    simp only [coerce3, hhum, htem, hsm0]
  simp [trigger_prediction, hread, hne, hcoerce]

/-- C3 witness: the amended statement applied at the concrete
snapshot missing `soilMoisture`. -/
theorem trigger_missing_field_defaults_zero_witness :
    trigger_prediction trigEnvMissing
      = TriggerResult.success
          (predict_irrigation envOk { humidity := 60, temperature := 30, soilMoisture := 0 })
          snapMissing :=
  trigger_missing_field_defaults_zero trigEnvMissing snapMissing 60 30 rfl rfl rfl rfl rfl

/-- C2 counterexample: starting from the initial state, three read
failures followed by a successful read (absent node) leave
`consecutive_errors` at 3, not 0; and four failures, a successful
unchanged read, and a fifth failure stop the loop — the successful
read did not reset the counter, so the subsequent failure does
trigger shutdown. -/
theorem poller_read_success_no_reset_cex :
    (monitor_run [iterFail, iterFail, iterFail, iterNone] initial_state).1.consecutive_errors = 3
    ∧ (monitor_run [iterA, iterFail, iterFail, iterFail, iterFail, iterA, iterFail]
        initial_state).2.2 = true := by
  exact ⟨by decide, by decide⟩

/-- C2 (amended): `consecutive_errors` is reset to zero only in an
iteration whose successful read yields a changed, complete,
successfully coerced snapshot that is fed to the pipeline; a
successful read whose node is absent, unchanged, or incomplete, or
whose coercion fails, leaves the counter unchanged. -/
theorem poller_counter_reset_only_on_processed (penv : PredictEnv) (s : PollerState)
    (current : Snapshot) :
    ((monitor_step penv (Except.ok none) s).1.consecutive_errors = s.consecutive_errors)
    ∧ (snapshot_changed s.last_values current = false →
        (monitor_step penv (Except.ok (some current)) s).1.consecutive_errors
          = s.consecutive_errors)
    ∧ (snapshot_changed s.last_values current = true →
        has_required_fields current = false →
        (monitor_step penv (Except.ok (some current)) s).1.consecutive_errors
          = s.consecutive_errors)
    ∧ (∀ e, snapshot_changed s.last_values current = true →
        has_required_fields current = true →
        coerce3 current = Except.error e →
        (monitor_step penv (Except.ok (some current)) s).1.consecutive_errors
          = s.consecutive_errors)
    ∧ (∀ data, snapshot_changed s.last_values current = true →
        has_required_fields current = true →
        coerce3 current = Except.ok data →
        (monitor_step penv (Except.ok (some current)) s).1.consecutive_errors = 0) := by
  refine ⟨rfl, ?_, ?_, ?_, ?_⟩
  · intro hch; simp [monitor_step, hch]
  · intro hch hreq; simp [monitor_step, hch, hreq]
  · intro e hch hreq hco; simp [monitor_step, hch, hreq, hco]
  · intro data hch hreq hco; simp [monitor_step, hch, hreq, hco]

/-- C2 witness: processing the changed, complete, coercible snapshot
`snapA` from counter 3 resets the counter to 0. -/
theorem poller_counter_reset_only_on_processed_witness :
    (monitor_step envOk (Except.ok (some snapA))
      { last_values := none, consecutive_errors := 3 }).1.consecutive_errors = 0 :=
  (poller_counter_reset_only_on_processed envOk
      { last_values := none, consecutive_errors := 3 } snapA).2.2.2.2
    { humidity := 60, temperature := 30, soilMoisture := 45 } rfl (by decide) (by decide)

/-- C4: after a changed, complete, successfully coerced snapshot is
fed to the pipeline, the poller updates `last_values` to that
snapshot and resets the counter even when the pipeline returned an
error result, so the same snapshot is not reprocessed next
iteration. -/
theorem poller_marks_processed_despite_pipeline_error (penv : PredictEnv) (s : PollerState)
    (current : Snapshot) (data : SensorData) (m : String)
    (hch : snapshot_changed s.last_values current = true)
    (hreq : has_required_fields current = true)
    (hco : coerce3 current = Except.ok data)
    (_hperr : predict_irrigation penv data = PredictResult.error m) :
    monitor_step penv (Except.ok (some current)) s
      = ({ last_values := some current, consecutive_errors := 0 }, true, false) := by
  simp [monitor_step, hch, hreq, hco]

/-- C4 witness: with a failing classifier the pipeline returns an
error dict, yet the step still records `snapA` as processed. -/
theorem poller_marks_processed_despite_pipeline_error_witness :
    monitor_step envModelFail (Except.ok (some snapA)) initial_state
      = ({ last_values := some snapA, consecutive_errors := 0 }, true, false) :=
  poller_marks_processed_despite_pipeline_error envModelFail initial_state snapA
    { humidity := 60, temperature := 30, soilMoisture := 45 } "model failure"
    rfl (by decide) (by decide) (by decide)

/-- C6 counterexample: four read failures, a successful read (absent
node, which does not reset the counter), and one more failure stop
the loop although no run of five consecutive failures ever
occurred. -/
theorem poller_failstop_without_five_consecutive_cex :
    (monitor_run [iterFail, iterFail, iterFail, iterFail, iterNone, iterFail]
      initial_state).2.2 = true := by
  decide

/-- C6 (amended): the loop breaks exactly when a store-read failure
pushes `consecutive_errors` (which counts read failures and is reset
only when a changed complete snapshot is successfully processed, not
on every successful read) to the ceiling `max_errors = 5`; a
successful read never breaks the loop; and a break is permanent — the
rest of the schedule is never executed. -/
theorem poller_failstop_at_counter_ceiling (penv : PredictEnv) (s : PollerState) :
    (∀ e, ((monitor_step penv (Except.error e) s).2.2 = true
        ↔ max_errors ≤ s.consecutive_errors + 1))
    ∧ (∀ e, (monitor_step penv (Except.error e) s).1.consecutive_errors
        = s.consecutive_errors + 1)
    ∧ (∀ curOpt, (monitor_step penv (Except.ok curOpt) s).2.2 = false)
    ∧ (∀ it rest, (monitor_step it.penv it.read s).2.2 = true →
        (monitor_run (it :: rest) s).1 = (monitor_step it.penv it.read s).1
        ∧ (monitor_run (it :: rest) s).2.2 = true) := by
  refine ⟨?_, ?_, ?_, ?_⟩
  · intro e; simp [monitor_step]
  · intro e; rfl
  · intro curOpt
    cases curOpt with
    | none => rfl
    | some current =>
      simp only [monitor_step]
      split
      · split
        · split <;> rfl
        · rfl
      · rfl
  · intro it rest hbrk
    rcases hm : monitor_step it.penv it.read s with ⟨s2, inv, brk⟩
    rw [hm] at hbrk
    have hbrk' : brk = true := hbrk
    subst hbrk'
    constructor
    · simp [monitor_run, hm]
    · simp [monitor_run, hm]

/-- C6 witness: a read failure at counter 4 reaches the ceiling and
breaks the loop. -/
theorem poller_failstop_at_counter_ceiling_witness :
    (monitor_step envOk (Except.error "boom")
      { last_values := none, consecutive_errors := 4 }).2.2 = true :=
  ((poller_failstop_at_counter_ceiling envOk
      { last_values := none, consecutive_errors := 4 }).1 "boom").mpr (by decide)

/-- C7: change detection — a snapshot dict-equal to the last
processed one never invokes the pipeline; an unset `last_values` or a
differing snapshot is treated as changed and, when complete and
coercible, invokes the pipeline; observing `snapA` twice invokes the
pipeline exactly once, and `snapA` then the differing `snapB` invokes
it exactly twice. -/
theorem poller_change_detection (penv : PredictEnv) (s : PollerState) (current : Snapshot) :
    (∀ prev, s.last_values = some prev → dict_eq current prev = true →
        (monitor_step penv (Except.ok (some current)) s).2.1 = false)
    ∧ ((s.last_values = none ∨
          ∃ prev, s.last_values = some prev ∧ dict_eq current prev = false) →
        ∀ data, has_required_fields current = true → coerce3 current = Except.ok data →
        (monitor_step penv (Except.ok (some current)) s).2.1 = true)
    ∧ (monitor_run [iterA, iterA] initial_state).2.1 = 1
    ∧ (monitor_run [iterA, iterB] initial_state).2.1 = 2 := by
  refine ⟨?_, ?_, by decide, by decide⟩
  · intro prev hprev heq
    cases hch : snapshot_changed s.last_values current with
    | false => simp [monitor_step, hch]
    | true =>
      rw [hprev] at hch
      simp only [snapshot_changed, heq, Bool.not_true, Bool.false_or] at hch
      have hreq : has_required_fields current = false :=
        dict_eq_empty_no_fields current prev heq hch
      simp [monitor_step, snapshot_changed, hprev, heq, hch, hreq]
  · intro hch data hreq hco
    have hch' : snapshot_changed s.last_values current = true := by
      rcases hch with hnone | ⟨prev, hprev, hne⟩
      · simp [snapshot_changed, hnone]
      · simp [snapshot_changed, hprev, hne]
    simp [monitor_step, hch', hreq, hco]

/-- C7 witness: from the initial state (no last processed snapshot),
reading the complete coercible `snapA` invokes the pipeline. -/
theorem poller_change_detection_witness :
    (monitor_step envOk (Except.ok (some snapA)) initial_state).2.1 = true :=
  (poller_change_detection envOk initial_state snapA).2.1 (Or.inl rfl)
    { humidity := 60, temperature := 30, soilMoisture := 45 } (by decide) (by decide)

/-- C10: across every reachable poller state, `last_values` is either
unset or a snapshot containing all three required fields: the
invariant holds initially, is preserved by every iteration, and holds
after any run from the initial state. -/
theorem poller_last_values_invariant :
    state_inv initial_state
    ∧ (∀ penv read s, state_inv s → state_inv (monitor_step penv read s).1)
    ∧ (∀ iters, state_inv (monitor_run iters initial_state).1) := by
  refine ⟨Or.inl rfl, monitor_step_inv, ?_⟩
  intro iters
  exact monitor_run_inv iters initial_state (Or.inl rfl)

/-- C10 witness: the invariant-preservation part applied at a concrete
step that assigns `last_values`. -/
theorem poller_last_values_invariant_witness :
    state_inv (monitor_step envOk (Except.ok (some snapA)) initial_state).1 :=
  poller_last_values_invariant.2.1 envOk (Except.ok (some snapA)) initial_state (Or.inl rfl)

end Irrigation
